import Mathlib

/-!
Shallow embedding of the RTO-Optimiser backend (`src/backend/server.py` and
`src/backend/seller_routes.py`): the NDR proof-validation rules, the
courier-event ingestion webhook, the NDR resolution endpoint, the seller
challenge endpoint and the seller dashboard aggregation, together with theorems
settling the frozen claims about them.

Conventions of the embedding:

* Python floats are modelled as rationals (`ℚ`) and datetimes as integer
  instants in seconds; `timedelta(hours=2)` is `7200` and one day is `86400`.
  The timezone reinterpretation `timestamp.replace(tzinfo=TIMEZONE)` is not
  modelled: timestamps are abstract instants on a single clock.
* MongoDB collections are lists of documents; `find_one` is `List.find?`
  (first match); `insert_one` appends; `update_one` keyed on `_id` is a
  guarded `List.map` — every `_id` is a freshly generated uuid (and `_id` is
  unique by MongoDB's constraint), so at most one document ever matches.
  Fresh `_id` values are drawn from a counter threaded through the state.
* The external geopy `geodesic` called by `validate_gps_proximity` is taken
  as a parameter `dist` by every definition that needs it; the repository
  does not constrain it beyond being the great-circle distance in meters.
* Python truthiness on optional numeric fields
  (`event.get("gps_latitude") and ...`) is modelled by `truthyQ`/`truthyI`:
  a value is truthy exactly when it is present and nonzero.
-/

namespace RTO

/-- Python truthiness of an optional float field: `None` and `0.0` are falsy. -/
def truthyQ : Option ℚ → Bool
  | none => false
  | some x => decide (x ≠ 0)

/-- Python truthiness of an optional int field: `None` and `0` are falsy. -/
def truthyI : Option Int → Bool
  | none => false
  | some n => decide (n ≠ 0)

/-- Modelled from the spec: §4.1 GeoDistance. The repository delegates the
distance computation to the external geopy `geodesic`, which is not part of
the repository; throughout this file it is an explicit parameter `dist`.
This concrete stand-in agrees with any great-circle distance on the one fact
the claims use — the distance between coinciding coordinates is `0` — and
answers `840000` (the spec's ~840 km Mumbai–Bengaluru scenario) otherwise;
it instantiates `dist` in closed evaluations. -/
def gcDist (lat1 lng1 lat2 lng2 : ℚ) : ℚ :=
  if lat1 = lat2 ∧ lng1 = lng2 then 0 else 840000

/-- `validate_gps_proximity` (server.py:112-119): distance at most
`max_distance_meters`. The `try/except` around `geodesic` cannot fire on
rational inputs and is not modelled. The caller always uses the default
`max_distance_meters = 200`. -/
def validate_gps_proximity (dist : ℚ → ℚ → ℚ → ℚ → ℚ)
    (lat1 lng1 lat2 lng2 : ℚ) (max_distance_meters : ℚ) : Bool :=
  decide (dist lat1 lng1 lat2 lng2 ≤ max_distance_meters)

/-- An `addresses` collection document (server.py:333-346, 553-566). -/
structure Address where
  id : String
  line1 : String
  line2 : Option String
  city : String
  state : String
  pincode : String
  country : String
  latitude : Option ℚ
  longitude : Option ℚ
  created_at : Int
  deriving Repr, DecidableEq

/-- A `courier_events` collection document (server.py:445-463), including the
flags written later by the challenge workflow (seller_routes.py:476-479). -/
structure CourierEvent where
  id : String
  shipment_id : String
  event_code : String
  event_description : Option String
  location : Option String
  timestamp : Int
  ndr_code : Option String
  ndr_reason : Option String
  proof_required : Bool
  proof_validated : Bool
  gps_latitude : Option ℚ
  gps_longitude : Option ℚ
  call_duration_sec : Option Int
  call_outcome : Option String
  overturned_flag : Bool
  overturned_within_2h : Bool
  challenged : Bool
  challenge_id : Option String
  created_at : Int
  deriving Repr, DecidableEq

/-- Result dictionary of `NDRProofValidator.validate_proof_of_attempt`
(server.py:146-151). -/
structure ValidationResult where
  is_valid : Bool
  gps_valid : Bool
  call_valid : Bool
  violations : List String
  deriving Repr, DecidableEq

namespace NDRProofValidator

/-- `NDRProofValidator.validate_proof_of_attempt` (server.py:141-179).
Non-(NDR, CUSTOMER_UNAVAILABLE) events short-circuit to `is_valid = true`.
The GPS presence test is Python truthiness (`event.get(...) and ...`), so a
coordinate equal to `0.0` counts as missing; likewise for the call duration. -/
def validate_proof_of_attempt (dist : ℚ → ℚ → ℚ → ℚ → ℚ)
    (event : CourierEvent) (delivery_address : Address) : ValidationResult :=
  if ¬ (event.event_code = "NDR" ∧ event.ndr_code = some "CUSTOMER_UNAVAILABLE") then
    { is_valid := true, gps_valid := false, call_valid := false, violations := [] }
  else
    let gpsPresent := truthyQ event.gps_latitude && truthyQ event.gps_longitude &&
      truthyQ delivery_address.latitude && truthyQ delivery_address.longitude
    let gps_valid :=
      if gpsPresent then
        validate_gps_proximity dist (event.gps_latitude.getD 0) (event.gps_longitude.getD 0)
          (delivery_address.latitude.getD 0) (delivery_address.longitude.getD 0) 200
      else false
    let violations1 : List String :=
      if gpsPresent then
        if gps_valid then [] else ["GPS location not within 200m of delivery address"]
      else ["Missing GPS coordinates"]
    let call_valid := truthyI event.call_duration_sec && decide (event.call_duration_sec.getD 0 ≥ 10)
    let violations2 : List String :=
      if call_valid then [] else ["Call duration less than 10 seconds or missing"]
    { is_valid := gps_valid && call_valid
      gps_valid := gps_valid
      call_valid := call_valid
      violations := violations1 ++ violations2 }

end NDRProofValidator

/-- A record stored under the `"ndr_resolution"` key of an order's
`order_metadata` (server.py:534-539, 548, 573, 610-614). -/
structure ResolutionData where
  order_id : String
  action : String
  timestamp : Int
  status : String
  new_delivery_date : Option Int
  new_address_id : Option String
  deriving Repr, DecidableEq

/-- An `orders` collection document (server.py:358-373); only the
`"ndr_resolution"` key of `order_metadata` is modelled. -/
structure Order where
  id : String
  order_id : String
  brand_id : String
  delivery_address_id : String
  order_value : ℚ
  payment_mode : String
  status : String
  promised_delivery_date : Option Int
  ndr_resolution_meta : Option ResolutionData
  created_at : Int
  updated_at : Int
  deriving Repr, DecidableEq

/-- A `shipments` collection document (server.py:420-434). -/
structure Shipment where
  id : String
  shipment_id : String
  order_id : String
  carrier : String
  awb_number : String
  current_status : String
  rto_initiated : Bool
  rto_completed : Bool
  created_at : Int
  updated_at : Int
  deriving Repr, DecidableEq

/-- An `ndr_challenges` collection document (seller_routes.py:460-471). -/
structure Challenge where
  id : String
  order_id : String
  ndr_event_id : String
  challenge_reason : String
  evidence_required : List String
  seller_comments : Option String
  status : String
  created_at : Int
  resolved_at : Option Int
  resolution : Option String
  deriving Repr, DecidableEq

/-- The persistent state: the MongoDB collections the modelled endpoints touch
(server.py:59-70) plus a counter `next_id` from which fresh uuid `_id` strings
are drawn. -/
structure DB where
  orders : List Order
  addresses : List Address
  shipments : List Shipment
  courier_events : List CourierEvent
  ndr_challenges : List Challenge
  next_id : Nat
  deriving Repr, DecidableEq

/-- A fresh uuid4 `_id` (modelled by the state counter). -/
def freshId (db : DB) : String := "uuid-" ++ toString db.next_id

/-- The state after drawing one fresh `_id`. -/
def bumpId (db : DB) : DB := { db with next_id := db.next_id + 1 }

def emptyDB : DB :=
  { orders := [], addresses := [], shipments := [], courier_events := []
    ndr_challenges := [], next_id := 0 }

/-- `CourierEventRequest` (server.py:86-97); the timestamp arrives already
parsed to an instant. -/
structure CourierEventRequest where
  shipment_id : String
  event_code : String
  event_description : Option String
  location : Option String
  timestamp : Int
  ndr_code : Option String
  ndr_reason : Option String
  gps_latitude : Option ℚ
  gps_longitude : Option ℚ
  call_duration_sec : Option Int
  call_outcome : Option String
  deriving Repr, DecidableEq

/-- The response body of `webhook_courier_event` (server.py:505-511). -/
structure IngestResponse where
  status : String
  event_id : String
  proof_required : Bool
  proof_validated : Bool
  deriving Repr, DecidableEq

/-- The placeholder shipment auto-provisioned by `webhook_courier_event` when
no shipment matches the request (server.py:419-434). -/
def defaultShipment (now : Int) (sid : String) (req : CourierEventRequest) : Shipment :=
  { id := sid, shipment_id := req.shipment_id, order_id := "test-order-id"
    carrier := "Unknown", awb_number := req.shipment_id
    current_status := "IN_TRANSIT", rto_initiated := false, rto_completed := false
    created_at := now, updated_at := now }

/-- The courier-event document as first built (server.py:445-463), before the
proof flags are filled in. -/
def baseEventDoc (now : Int) (eid : String) (shipmentRecordId : String)
    (req : CourierEventRequest) : CourierEvent :=
  { id := eid, shipment_id := shipmentRecordId, event_code := req.event_code
    event_description := req.event_description, location := req.location
    timestamp := req.timestamp, ndr_code := req.ndr_code, ndr_reason := req.ndr_reason
    proof_required := false, proof_validated := false
    gps_latitude := req.gps_latitude, gps_longitude := req.gps_longitude
    call_duration_sec := req.call_duration_sec, call_outcome := req.call_outcome
    overturned_flag := false, overturned_within_2h := false
    challenged := false, challenge_id := none, created_at := now }

/-- `webhook_courier_event` (server.py:408-518). An unknown `shipment_id` is
auto-provisioned as `defaultShipment`; proof validation runs only for
(NDR, CUSTOMER_UNAVAILABLE) requests, and only when the shipment already
existed (`if shipment:`) and its order and that order's address resolve;
otherwise `proof_validated` keeps its initialized `false`. The endpoint always
answers success for well-formed requests. -/
def webhook_courier_event (dist : ℚ → ℚ → ℚ → ℚ → ℚ) (now : Int)
    (req : CourierEventRequest) (db : DB) : DB × IngestResponse :=
  let found := db.shipments.find? (fun s => s.shipment_id = req.shipment_id)
  let (db1, shipmentRecordId) :=
    match found with
    | none =>
        let sid := freshId db
        let db' := bumpId db
        ({ db' with shipments := db'.shipments ++ [defaultShipment now sid req] }, sid)
    | some s => (db, s.id)
  let eid := freshId db1
  let db2 := bumpId db1
  let doc := baseEventDoc now eid shipmentRecordId req
  let doc :=
    if req.event_code = "NDR" ∧ req.ndr_code = some "CUSTOMER_UNAVAILABLE" then
      let pv :=
        match found with
        | none => false
        | some s =>
          match db2.orders.find? (fun o => o.id = s.order_id) with
          | none => false
          | some o =>
            match db2.addresses.find? (fun a => a.id = o.delivery_address_id) with
            | none => false
            | some a =>
                (NDRProofValidator.validate_proof_of_attempt dist
                  { doc with proof_required := true } a).is_valid
      { doc with proof_required := true, proof_validated := pv }
    else doc
  ({ db2 with courier_events := db2.courier_events ++ [doc] },
   { status := "success", event_id := eid
     proof_required := doc.proof_required, proof_validated := doc.proof_validated })

/-- `NDRResolutionRequest` (server.py:99-104); the optional new address
payload mirrors the `.get(key, default)` reads of server.py:553-566.
Python's truthiness test `if request.new_address:` treats an absent (or empty)
payload as falsy; an absent payload is `none`. -/
structure AddressPayload where
  line1 : Option String
  line2 : Option String
  city : Option String
  state : Option String
  pincode : Option String
  country : Option String
  latitude : Option ℚ
  longitude : Option ℚ
  deriving Repr, DecidableEq

structure NDRResolutionRequest where
  order_id : String
  action : String
  new_address : Option AddressPayload
  reschedule_date : Option Int
  customer_response : Option String
  deriving Repr, DecidableEq

/-- An HTTP error response (`HTTPException(status_code, detail)`). -/
structure HTTPError where
  status_code : Nat
  detail : String
  deriving Repr, DecidableEq

/-- The success body of `ndr_resolution` (server.py:629-634). -/
structure ResolutionResponse where
  status : String
  order_id : String
  action : String
  deriving Repr, DecidableEq

/-- The `$set` dictionary `update_data` accumulated by `ndr_resolution`
(server.py:541-615): each field is written only when present. -/
structure OrderUpdate where
  promised_delivery_date : Option Int
  delivery_address_id : Option String
  status : Option String
  deriving Repr, DecidableEq

/-- Application of `update_data` (plus the always-written metadata and
`updated_at`) to an order document, as `update_one .. {"$set": update_data}`
does (server.py:610-621). -/
def applyOrderUpdate (now : Int) (upd : OrderUpdate) (res : ResolutionData)
    (o : Order) : Order :=
  { o with
    promised_delivery_date :=
      match upd.promised_delivery_date with
      | some d => some d
      | none => o.promised_delivery_date
    delivery_address_id := upd.delivery_address_id.getD o.delivery_address_id
    status := upd.status.getD o.status
    ndr_resolution_meta := some res
    updated_at := now }

/-- The new address document created by the CHANGE_ADDRESS branch
(server.py:553-566). -/
def newAddressDoc (now : Int) (aid : String) (p : AddressPayload) : Address :=
  { id := aid, line1 := p.line1.getD "", line2 := p.line2
    city := p.city.getD "", state := p.state.getD "", pincode := p.pincode.getD ""
    country := p.country.getD "India", latitude := p.latitude, longitude := p.longitude
    created_at := now }

/-- One step of the latest-NDR scan: keep the later-stamped NDR event of the
given shipment (the first-encountered one among equal timestamps). -/
def latestStep (shipmentRecordId : String) (acc : Option CourierEvent)
    (e : CourierEvent) : Option CourierEvent :=
  if e.shipment_id = shipmentRecordId ∧ e.event_code = "NDR" then
    match acc with
    | none => some e
    | some b => if e.timestamp > b.timestamp then some e else some b
  else acc

/-- The latest NDR event of a shipment:
`find_one({shipment_id, event_code: "NDR"}, sort=[("timestamp", -1)])`
(server.py:582-588). Among equal timestamps the earliest-inserted document is
kept (a stable descending sort). -/
def latestNDRFor (shipmentRecordId : String) (evs : List CourierEvent) :
    Option CourierEvent :=
  evs.foldl (latestStep shipmentRecordId) none

/-- The `"$set": {"overturned_within_2h": True}` patch on one event document. -/
def markOT (eid : String) (e : CourierEvent) : CourierEvent :=
  if e.id = eid then { e with overturned_within_2h := true } else e

/-- `update_one({"_id": eid}, {"$set": {"overturned_within_2h": True}})`
(server.py:593-596); `_id` is unique, so the guarded map touches at most one
document. -/
def setOverturned (eid : String) (evs : List CourierEvent) : List CourierEvent :=
  evs.map (markOT eid)

/-- The body of the `try:` block of `ndr_resolution` (server.py:526-634);
an explicitly raised `HTTPException` is returned as `.error`. -/
def ndr_resolution_try (now : Int) (req : NDRResolutionRequest) (db : DB) :
    Except HTTPError (DB × ResolutionResponse) :=
  match db.orders.find? (fun o => o.order_id = req.order_id) with
  | none => .error ⟨400, "Invalid order_id"⟩
  | some order =>
    let res0 : ResolutionData :=
      { order_id := req.order_id, action := req.action, timestamp := now
        status := "processed", new_delivery_date := none, new_address_id := none }
    let upd0 : OrderUpdate :=
      { promised_delivery_date := none, delivery_address_id := none, status := none }
    let (db1, upd, res) :=
      if req.action = "RESCHEDULE" then
        match req.reschedule_date with
        | some d =>
            (db, { upd0 with promised_delivery_date := some d },
             { res0 with new_delivery_date := some d })
        | none => (db, upd0, res0)
      else if req.action = "CHANGE_ADDRESS" then
        match req.new_address with
        | some p =>
            let aid := freshId db
            let db' := bumpId db
            ({ db' with addresses := db'.addresses ++ [newAddressDoc now aid p] },
             { upd0 with delivery_address_id := some aid },
             { res0 with new_address_id := some aid })
        | none => (db, upd0, res0)
      else if req.action = "DISPUTE" then
        match db.shipments.find? (fun s => s.order_id = order.id) with
        | some s =>
            (match latestNDRFor s.id db.courier_events with
             | some e =>
                 if now - e.timestamp ≤ 7200 then
                   ({ db with courier_events := setOverturned e.id db.courier_events },
                    upd0, res0)
                 else (db, upd0, res0)
             | none => (db, upd0, res0))
        | none => (db, upd0, res0)
      else if req.action = "RTO" then
        match db.shipments.find? (fun s => s.order_id = order.id) with
        | some s =>
            ({ db with shipments := db.shipments.map (fun s' =>
                 if s'.id = s.id then { s' with rto_initiated := true, updated_at := now }
                 else s') },
             { upd0 with status := some "RTO_INITIATED" }, res0)
        | none => (db, upd0, res0)
      else (db, upd0, res0)
    let db2 := { db1 with orders := db1.orders.map (fun o =>
      if o.id = order.id then applyOrderUpdate now upd res o else o) }
    .ok (db2, { status := "success", order_id := req.order_id, action := req.action })

/-- `ndr_resolution` (server.py:520-641). The endpoint's `try` ends in
`except ValidationError` / `except Exception`; FastAPI's `HTTPException`
subclasses `Exception` and there is no `except HTTPException: raise` clause, so
the `HTTPException(400, "Invalid order_id")` raised inside the `try` is caught
by the blanket handler and re-raised as `HTTPException(500, "Internal server
error")`. The wrapper models exactly that. -/
def ndr_resolution (now : Int) (req : NDRResolutionRequest) (db : DB) :
    Except HTTPError (DB × ResolutionResponse) :=
  match ndr_resolution_try now req db with
  | .ok r => .ok r
  | .error _ => .error ⟨500, "Internal server error"⟩

/-- `NDRChallenge` request model (seller_routes.py:36-40). -/
structure NDRChallengeReq where
  order_id : String
  challenge_reason : String
  evidence_required : List String
  seller_comments : Option String
  deriving Repr, DecidableEq

/-- The success body of `challenge_ndr` (seller_routes.py:489-494). -/
structure ChallengeResponse where
  status : String
  challenge_id : String
  message : String
  expected_resolution : Int
  deriving Repr, DecidableEq

/-- The shipment-scanning loop of `challenge_ndr` (seller_routes.py:445-454):
the latest NDR event of the first shipment that has one. -/
def findFirstNDR (shipments : List Shipment) (evs : List CourierEvent) :
    Option CourierEvent :=
  match shipments with
  | [] => none
  | s :: rest =>
    match latestNDRFor s.id evs with
    | some e => some e
    | none => findFirstNDR rest evs

/-- `challenge_ndr` (seller_routes.py:423-506). `dbAvailable` models
`collections.get("orders")` being usable; when it is not, the endpoint
answers a fabricated demo success without touching any state
(seller_routes.py:427-435). The explicit 404s propagate unchanged through
`except HTTPException: raise`. The final `except Exception` clause answers a
fabricated fallback success as well; no other failure can arise in the pure
model, so only the demo branch is modelled. -/
def challenge_ndr (dbAvailable : Bool) (now : Int) (req : NDRChallengeReq)
    (db : DB) : Except HTTPError (DB × ChallengeResponse) :=
  if dbAvailable then
    match db.orders.find? (fun o => o.order_id = req.order_id) with
    | none => .error ⟨404, "Order not found"⟩
    | some order =>
      let shipments := db.shipments.filter (fun s => s.order_id = order.id)
      match findFirstNDR shipments db.courier_events with
      | none => .error ⟨404, "No NDR event found for this order"⟩
      | some e =>
        let cid := freshId db
        let db1 := bumpId db
        let record : Challenge :=
          { id := cid, order_id := req.order_id, ndr_event_id := e.id
            challenge_reason := req.challenge_reason
            evidence_required := req.evidence_required
            seller_comments := req.seller_comments
            status := "UNDER_REVIEW", created_at := now
            resolved_at := none, resolution := none }
        let db2 := { db1 with
          ndr_challenges := db1.ndr_challenges ++ [record]
          courier_events := db1.courier_events.map (fun e' =>
            if e'.id = e.id then { e' with challenged := true, challenge_id := some cid }
            else e')
          orders := db1.orders.map (fun o =>
            if o.id = order.id then { o with status := "NDR_CHALLENGED", updated_at := now }
            else o) }
        .ok (db2,
          { status := "success", challenge_id := cid
            message := "NDR challenge submitted successfully. Investigation will begin within 2 hours."
            expected_resolution := now + 86400 })
  else
    .ok (db,
      { status := "success", challenge_id := "demo_challenge_" ++ toString now
        message := "NDR challenge submitted successfully (demo mode). Investigation will begin within 2 hours."
        expected_resolution := now + 86400 })

/-- Per-carrier counters of the dashboard's `carrier_stats` dictionary
(seller_routes.py:115-122). -/
structure CarrierStats where
  total : Nat
  delivered : Nat
  verified_ndrs : Nat
  suspicious_ndrs : Nat
  rto_prevented : Nat
  deriving Repr, DecidableEq

def initStats : CarrierStats :=
  { total := 0, delivered := 0, verified_ndrs := 0, suspicious_ndrs := 0
    rto_prevented := 0 }

/-- `if carrier not in carrier_stats: <insert zeros>` followed by in-place
increments: update the entry for `c`, appending a fresh zero entry first when
absent (Python dicts keep insertion order). -/
def updCarrier (c : String) (f : CarrierStats → CarrierStats) :
    List (String × CarrierStats) → List (String × CarrierStats)
  | [] => [(c, f initStats)]
  | (k, v) :: rest =>
    if k = c then (k, f v) :: rest else (k, v) :: updCarrier c f rest

/-- The NDR events of one shipment (seller_routes.py:132-135). -/
def ndrEventsOf (shipmentRecordId : String) (db : DB) : List CourierEvent :=
  db.courier_events.filter (fun e =>
    e.shipment_id = shipmentRecordId ∧ e.event_code = "NDR")

/-- The per-NDR-event increments of the carrier counters
(seller_routes.py:137-148): `verified` / `suspicious` per the `if`/`elif`,
plus `rto_prevented` for an overturned flag. -/
def ndrEventStep (st : CarrierStats) (e : CourierEvent) : CarrierStats :=
  let st :=
    if e.proof_validated then { st with verified_ndrs := st.verified_ndrs + 1 }
    else if e.proof_required then
      { st with suspicious_ndrs := st.suspicious_ndrs + 1 }
    else st
  if e.overturned_flag then { st with rto_prevented := st.rto_prevented + 1 }
  else st

/-- The per-shipment increments applied to a carrier's counters
(seller_routes.py:124-148). -/
def shipmentStatsUpdate (db : DB) (s : Shipment) (st : CarrierStats) : CarrierStats :=
  let st := { st with total := st.total + 1 }
  let st :=
    if s.current_status = "DELIVERED" then { st with delivered := st.delivered + 1 }
    else st
  (ndrEventsOf s.id db).foldl ndrEventStep st

/-- The dashboard's running totals: the `carrier_stats` dictionary plus the
four global counters (seller_routes.py:100-105). -/
structure DashAcc where
  stats : List (String × CarrierStats)
  successful_deliveries : Nat
  verified_ndrs : Nat
  suspicious_ndrs : Nat
  rto_prevented : Nat
  deriving Repr, DecidableEq

def emptyAcc : DashAcc :=
  { stats := [], successful_deliveries := 0, verified_ndrs := 0
    suspicious_ndrs := 0, rto_prevented := 0 }

/-- The shipments of one order (seller_routes.py:109-111). -/
def shipmentsOf (o : Order) (db : DB) : List Shipment :=
  db.shipments.filter (fun s => s.order_id = o.id)

/-- One iteration of the inner shipment loop (seller_routes.py:113-148). -/
def processShipment (db : DB) (acc : DashAcc) (s : Shipment) : DashAcc :=
  let ndrs := ndrEventsOf s.id db
  { stats := updCarrier s.carrier (shipmentStatsUpdate db s) acc.stats
    successful_deliveries := acc.successful_deliveries +
      (if s.current_status = "DELIVERED" then 1 else 0)
    verified_ndrs := acc.verified_ndrs + (ndrs.filter (fun e => e.proof_validated)).length
    suspicious_ndrs := acc.suspicious_ndrs +
      (ndrs.filter (fun e => ¬ e.proof_validated ∧ e.proof_required)).length
    rto_prevented := acc.rto_prevented + (ndrs.filter (fun e => e.overturned_flag)).length }

/-- The nested order/shipment loops (seller_routes.py:107-148). -/
def dashAcc (db : DB) (orders : List Order) : DashAcc :=
  orders.foldl (fun acc o => (shipmentsOf o db).foldl (processShipment db) acc) emptyAcc

/-- Python's `round(x, 2)`: modelled as rounding half away from the smaller
value at the second decimal. The source rounds a float with banker's rounding,
which differs only on exact two-decimal ties; no claim exercises a tie. -/
def roundQ2 (x : ℚ) : ℚ := (round (x * 100) : ℤ) / 100

/-- One entry of `carrier_breakdown` (seller_routes.py:155-164). -/
structure CarrierBreakdownEntry where
  carrier : String
  total_orders : Nat
  success_rate : ℚ
  verified_ndrs : Nat
  suspicious_ndrs : Nat
  rto_prevented : Nat
  deriving Repr, DecidableEq

def carrierEntry (p : String × CarrierStats) : CarrierBreakdownEntry :=
  { carrier := p.1, total_orders := p.2.total
    success_rate :=
      if 0 < p.2.total then roundQ2 ((p.2.delivered : ℚ) / (p.2.total : ℚ) * 100)
      else 0
    verified_ndrs := p.2.verified_ndrs, suspicious_ndrs := p.2.suspicious_ndrs
    rto_prevented := p.2.rto_prevented }

/-- The sum of the per-carrier `total` counters. -/
def sumTotals (l : List (String × CarrierStats)) : Nat :=
  (l.map (fun q => q.2.total)).sum

/-- `SellerKPIResponse` (seller_routes.py:24-34). -/
structure SellerKPIResponse where
  brand_id : String
  period : String
  total_orders : Nat
  successful_deliveries : Nat
  success_rate : ℚ
  verified_ndrs : Nat
  suspicious_ndrs : Nat
  rto_prevented : Nat
  cost_saved : ℚ
  carrier_breakdown : List CarrierBreakdownEntry
  deriving Repr, DecidableEq

/-- The fixed demo dashboard answered when the database is unavailable
(seller_routes.py:52-82). -/
def demoDashboard (brand_id period : String) : SellerKPIResponse :=
  { brand_id := brand_id, period := period, total_orders := 50
    successful_deliveries := 42, success_rate := 84, verified_ndrs := 3
    suspicious_ndrs := 2, rto_prevented := 5, cost_saved := 1000
    carrier_breakdown :=
      [ { carrier := "Delhivery", total_orders := 30, success_rate := 867/10
          verified_ndrs := 2, suspicious_ndrs := 1, rto_prevented := 3 }
      , { carrier := "Shiprocket", total_orders := 20, success_rate := 80
          verified_ndrs := 1, suspicious_ndrs := 1, rto_prevented := 2 } ] }

/-- The period cut-off: 1, 7 or 30 days back (seller_routes.py:84-91). -/
def periodDays (period : String) : Nat :=
  if period = "day" then 1 else if period = "week" then 7 else 30

/-- The brand's orders inside the queried window (seller_routes.py:94-97). -/
def filteredOrders (now : Int) (brand_id period : String) (db : DB) : List Order :=
  db.orders.filter (fun o =>
    o.brand_id = brand_id ∧ now - (periodDays period : Int) * 86400 ≤ o.created_at)

/-- `get_seller_dashboard` (seller_routes.py:44-204). `dbAvailable = false`
takes the demo-data branch (seller_routes.py:51-82). The `except Exception`
fallback (seller_routes.py:181-204) answers another fabricated demo response;
no failure arises in the pure model, so only the first branch is modelled. -/
def get_seller_dashboard (dbAvailable : Bool) (now : Int) (brand_id period : String)
    (db : DB) : SellerKPIResponse :=
  if dbAvailable then
    let orders := filteredOrders now brand_id period db
    let acc := dashAcc db orders
    let total_orders := orders.length
    { brand_id := brand_id, period := period, total_orders := total_orders
      successful_deliveries := acc.successful_deliveries
      success_rate :=
        if 0 < total_orders then
          roundQ2 ((acc.successful_deliveries : ℚ) / (total_orders : ℚ) * 100)
        else 0
      verified_ndrs := acc.verified_ndrs, suspicious_ndrs := acc.suspicious_ndrs
      rto_prevented := acc.rto_prevented
      cost_saved := (acc.rto_prevented : ℚ) * 200
      carrier_breakdown := acc.stats.map carrierEntry }
  else demoDashboard brand_id period

/-! Concrete sample data for closed evaluations. -/

def mkEvent (code : String) (ndr : Option String) (gla glo : Option ℚ)
    (dur : Option Int) : CourierEvent :=
  { id := "e1", shipment_id := "s1", event_code := code, event_description := none
    location := none, timestamp := 0, ndr_code := ndr, ndr_reason := none
    proof_required := false, proof_validated := false
    gps_latitude := gla, gps_longitude := glo, call_duration_sec := dur
    call_outcome := none, overturned_flag := false, overturned_within_2h := false
    challenged := false, challenge_id := none, created_at := 0 }

def mkAddress (aid : String) (la lo : Option ℚ) : Address :=
  { id := aid, line1 := "123 Test Street", line2 := none, city := "Bengaluru"
    state := "Karnataka", pincode := "560001", country := "India"
    latitude := la, longitude := lo, created_at := 0 }

def mkCEReq (code : String) (ndr : Option String) (gla glo : Option ℚ)
    (dur : Option Int) : CourierEventRequest :=
  { shipment_id := "ship-1", event_code := code, event_description := none
    location := none, timestamp := 0, ndr_code := ndr, ndr_reason := none
    gps_latitude := gla, gps_longitude := glo, call_duration_sec := dur
    call_outcome := none }

/-- A CUSTOMER_UNAVAILABLE NDR ingestion request with full proof telemetry. -/
def reqCU : CourierEventRequest :=
  mkCEReq "NDR" (some "CUSTOMER_UNAVAILABLE") (some 1) (some 1) (some 15)

def sampleOrder : Order :=
  { id := "o-1", order_id := "ORD-1", brand_id := "b", delivery_address_id := "a1"
    order_value := 500, payment_mode := "COD", status := "PLACED"
    promised_delivery_date := none, ndr_resolution_meta := none
    created_at := 0, updated_at := 0 }

def mkShipment (sid carrier cur : String) : Shipment :=
  { id := sid, shipment_id := "SHIP-" ++ sid, order_id := "o-1", carrier := carrier
    awb_number := "SHIP-" ++ sid, current_status := cur
    rto_initiated := false, rto_completed := false, created_at := 0, updated_at := 0 }

/-- An NDR event recorded against shipment `s-1` at instant `0`. -/
def sampleNDREvent : CourierEvent :=
  { mkEvent "NDR" (some "CUSTOMER_UNAVAILABLE") (some 1) (some 1) (some 15) with
    id := "e-1", shipment_id := "s-1", proof_required := true }

/-- A state holding one order, its address, one shipment and one NDR event. -/
def dbW : DB :=
  { orders := [sampleOrder], addresses := [mkAddress "a1" (some 1) (some 1)]
    shipments := [mkShipment "s-1" "Delhivery" "IN_TRANSIT"]
    courier_events := [sampleNDREvent], ndr_challenges := [], next_id := 0 }

def reqDispute : NDRResolutionRequest :=
  { order_id := "ORD-1", action := "DISPUTE", new_address := none
    reschedule_date := none, customer_response := none }

def samplePayload : AddressPayload :=
  { line1 := some "456 New Street", line2 := none, city := some "Bengaluru"
    state := some "Karnataka", pincode := some "560002", country := some "India"
    latitude := some 2, longitude := some 2 }

def reqChange : NDRResolutionRequest :=
  { order_id := "ORD-1", action := "CHANGE_ADDRESS", new_address := some samplePayload
    reschedule_date := none, customer_response := none }

def reqChal : NDRChallengeReq :=
  { order_id := "ORD-1", challenge_reason := "suspected false attempt"
    evidence_required := ["GPS log"], seller_comments := none }

/-- A state whose one in-period order has no shipments at all. -/
def dbNoShip : DB :=
  { orders := [sampleOrder], addresses := [], shipments := [], courier_events := []
    ndr_challenges := [], next_id := 0 }

/-- A state whose one in-period order has three shipments of one carrier, one
of them delivered. -/
def db3Ship : DB :=
  { orders := [sampleOrder], addresses := []
    shipments := [mkShipment "s-1" "Delhivery" "DELIVERED"
                 , mkShipment "s-2" "Delhivery" "IN_TRANSIT"
                 , mkShipment "s-3" "Delhivery" "IN_TRANSIT"]
    courier_events := [], ndr_challenges := [], next_id := 0 }

/-- A state whose one in-period order has exactly one shipment. -/
def db1Ship : DB :=
  { orders := [sampleOrder], addresses := []
    shipments := [mkShipment "s-1" "Delhivery" "DELIVERED"]
    courier_events := [], ndr_challenges := [], next_id := 0 }

/-! ## Helper lemmas -/

theorem truthyQ_some (x : ℚ) : truthyQ (some x) = decide (x ≠ 0) := rfl

theorem truthyI_some (n : Int) : truthyI (some n) = decide (n ≠ 0) := rfl

@[simp] theorem bumpId_orders (db : DB) : (bumpId db).orders = db.orders := rfl

@[simp] theorem bumpId_addresses (db : DB) : (bumpId db).addresses = db.addresses := rfl

@[simp] theorem bumpId_shipments (db : DB) : (bumpId db).shipments = db.shipments := rfl

@[simp] theorem bumpId_courier_events (db : DB) :
    (bumpId db).courier_events = db.courier_events := rfl

@[simp] theorem bumpId_ndr_challenges (db : DB) :
    (bumpId db).ndr_challenges = db.ndr_challenges := rfl

theorem markOT_id (eid : String) (e : CourierEvent) : (markOT eid e).id = e.id := by
  unfold markOT; split <;> rfl

theorem markOT_shipment_id (eid : String) (e : CourierEvent) :
    (markOT eid e).shipment_id = e.shipment_id := by
  unfold markOT; split <;> rfl

theorem markOT_event_code (eid : String) (e : CourierEvent) :
    (markOT eid e).event_code = e.event_code := by
  unfold markOT; split <;> rfl

theorem markOT_timestamp (eid : String) (e : CourierEvent) :
    (markOT eid e).timestamp = e.timestamp := by
  unfold markOT; split <;> rfl

theorem markOT_self (e : CourierEvent) :
    markOT e.id e = { e with overturned_within_2h := true } := by
  simp [markOT]

theorem markOT_markOT (eid : String) (e : CourierEvent) :
    markOT eid (markOT eid e) = markOT eid e := by
  by_cases h : e.id = eid <;> simp [markOT, h]

theorem setOverturned_idem (eid : String) (evs : List CourierEvent) :
    setOverturned eid (setOverturned eid evs) = setOverturned eid evs := by
  induction evs with
  | nil => rfl
  | cons e l ih =>
    simp only [setOverturned, List.map_cons] at ih ⊢
    rw [markOT_markOT, ih]

theorem latestStep_map (sid eid : String) (acc : Option CourierEvent)
    (e : CourierEvent) :
    latestStep sid (acc.map (markOT eid)) (markOT eid e)
      = (latestStep sid acc e).map (markOT eid) := by
  by_cases hc : e.shipment_id = sid ∧ e.event_code = "NDR" <;>
    cases acc <;>
    simp [latestStep, markOT_shipment_id, markOT_event_code, markOT_timestamp, hc] <;>
    split <;> simp

theorem latestNDRFor_setOverturned (sid eid : String) (evs : List CourierEvent) :
    latestNDRFor sid (setOverturned eid evs)
      = (latestNDRFor sid evs).map (markOT eid) := by
  suffices h : ∀ acc : Option CourierEvent,
      (evs.map (markOT eid)).foldl (latestStep sid) (acc.map (markOT eid))
        = (evs.foldl (latestStep sid) acc).map (markOT eid) by
    simpa [latestNDRFor, setOverturned] using h none
  induction evs with
  | nil => intro acc; rfl
  | cons e l ih =>
    intro acc
    simp only [List.map_cons, List.foldl_cons, latestStep_map]
    exact ih _

theorem latestNDRFor_mem (sid : String) (evs : List CourierEvent)
    (e : CourierEvent) (h : latestNDRFor sid evs = some e) : e ∈ evs := by
  suffices key : ∀ (l : List CourierEvent) (acc : Option CourierEvent),
      l.foldl (latestStep sid) acc = some e → acc = some e ∨ e ∈ l by
    rcases key evs none h with h' | h'
    · cases h'
    · exact h'
  intro l
  induction l with
  | nil => intro acc h'; exact Or.inl h'
  | cons x l ih =>
    intro acc h'
    rcases ih _ h' with h'' | h''
    · by_cases hc : x.shipment_id = sid ∧ x.event_code = "NDR"
      · unfold latestStep at h''
        rw [if_pos hc] at h''
        cases acc with
        | none =>
          cases h''
          exact Or.inr (List.mem_cons_self _ _)
        | some b =>
          rcases ite_eq_iff.mp h'' with ⟨_, hx⟩ | ⟨_, hb⟩
          · cases hx
            exact Or.inr (List.mem_cons_self _ _)
          · exact Or.inl hb
      · unfold latestStep at h''
        rw [if_neg hc] at h''
        exact Or.inl h''
    · exact Or.inr (List.mem_cons_of_mem _ h'')

theorem find?_map_congr {α : Type} (f : α → α) (p : α → Bool) (l : List α)
    (hp : ∀ a, p (f a) = p a) :
    (l.map f).find? p = (l.find? p).map f := by
  have hpf : p ∘ f = p := funext hp
  rw [List.find?_map, hpf]

theorem applyOrderUpdate_order_id (now : Int) (upd : OrderUpdate)
    (res : ResolutionData) (o : Order) :
    (applyOrderUpdate now upd res o).order_id = o.order_id := rfl

theorem applyOrderUpdate_id (now : Int) (upd : OrderUpdate)
    (res : ResolutionData) (o : Order) :
    (applyOrderUpdate now upd res o).id = o.id := rfl

/-- The full shape of a DISPUTE run of `ndr_resolution`: the latest NDR event
of the first shipment of the resolved order gets the fast-track flag exactly
inside the 2-hour window, the order document absorbs the resolution metadata,
and nothing else changes. -/
theorem dispute_run (now : Int) (req : NDRResolutionRequest) (db : DB)
    (order : Order) (s : Shipment)
    (h1 : req.action = "DISPUTE")
    (h2 : db.orders.find? (fun o => o.order_id = req.order_id) = some order)
    (h3 : db.shipments.find? (fun sh => sh.order_id = order.id) = some s) :
    ndr_resolution now req db = .ok
      ({ db with
         courier_events :=
           match latestNDRFor s.id db.courier_events with
           | some e =>
               if now - e.timestamp ≤ 7200 then setOverturned e.id db.courier_events
               else db.courier_events
           | none => db.courier_events
         orders := db.orders.map (fun o =>
           if o.id = order.id then
             applyOrderUpdate now ⟨none, none, none⟩
               ⟨req.order_id, req.action, now, "processed", none, none⟩ o
           else o) },
       { status := "success", order_id := req.order_id, action := req.action }) := by
  simp only [ndr_resolution, ndr_resolution_try, h1, h2, h3]
  cases h4 : latestNDRFor s.id db.courier_events <;> simp [h4] <;> split <;> simp

/-- The full shape of a CHANGE_ADDRESS run of `ndr_resolution` with a new
address payload: a fresh Address document is appended, the order repoints to
it, and nothing else changes. -/
theorem change_address_run (now : Int) (req : NDRResolutionRequest) (db : DB)
    (order : Order) (p : AddressPayload)
    (h1 : req.action = "CHANGE_ADDRESS")
    (h2 : db.orders.find? (fun o => o.order_id = req.order_id) = some order)
    (hp : req.new_address = some p) :
    ndr_resolution now req db = .ok
      ({ db with
         addresses := db.addresses ++ [newAddressDoc now (freshId db) p]
         next_id := db.next_id + 1
         orders := db.orders.map (fun o =>
           if o.id = order.id then
             applyOrderUpdate now ⟨none, some (freshId db), none⟩
               ⟨req.order_id, req.action, now, "processed", none, some (freshId db)⟩ o
           else o) },
       { status := "success", order_id := req.order_id, action := req.action }) := by
  simp [ndr_resolution, ndr_resolution_try, h1, h2, hp, bumpId]

/-! ## C1 — threshold rule for fully-instrumented CUSTOMER_UNAVAILABLE events -/

/-- C1 is false as stated: at an event whose four GPS values are all present
but equal to `0.0` (with the address at the same point, so the distance is `0
≤ 200`) and whose call lasted `15 ≥ 10` seconds, the claim predicts
`gpsValid = true` and `isValid = true`, but `validate_proof_of_attempt`
treats the truthiness-falsy `0.0` coordinates as missing and returns
`gps_valid = false`, `is_valid = false`. -/
theorem C1_counterexample :
    (mkEvent "NDR" (some "CUSTOMER_UNAVAILABLE") (some 0) (some 0) (some 15)).gps_latitude.isSome = true ∧
    (mkEvent "NDR" (some "CUSTOMER_UNAVAILABLE") (some 0) (some 0) (some 15)).gps_longitude.isSome = true ∧
    (mkAddress "a1" (some 0) (some 0)).latitude.isSome = true ∧
    (mkAddress "a1" (some 0) (some 0)).longitude.isSome = true ∧
    gcDist 0 0 0 0 ≤ 200 ∧
    (15 : Int) ≥ 10 ∧
    (NDRProofValidator.validate_proof_of_attempt gcDist
      (mkEvent "NDR" (some "CUSTOMER_UNAVAILABLE") (some 0) (some 0) (some 15))
      (mkAddress "a1" (some 0) (some 0))).gps_valid = false ∧
    (NDRProofValidator.validate_proof_of_attempt gcDist
      (mkEvent "NDR" (some "CUSTOMER_UNAVAILABLE") (some 0) (some 0) (some 15))
      (mkAddress "a1" (some 0) (some 0))).is_valid = false := by
  decide

/-- C1 (amended): for every CUSTOMER_UNAVAILABLE NDR event whose four GPS
values are present *and nonzero* and whose call duration is present, the
verdict is `isValid = gpsValid AND callValid` with
`gpsValid ⟺ distance ≤ 200` (inclusive) and `callValid ⟺ duration ≥ 10`
(inclusive), for any distance function `dist`. -/
theorem C1_amended (dist : ℚ → ℚ → ℚ → ℚ → ℚ) (ev : CourierEvent) (adr : Address)
    (la lo aa ao : ℚ) (d : Int)
    (hc : ev.event_code = "NDR") (hn : ev.ndr_code = some "CUSTOMER_UNAVAILABLE")
    (h1 : ev.gps_latitude = some la) (h1' : la ≠ 0)
    (h2 : ev.gps_longitude = some lo) (h2' : lo ≠ 0)
    (h3 : adr.latitude = some aa) (h3' : aa ≠ 0)
    (h4 : adr.longitude = some ao) (h4' : ao ≠ 0)
    (h5 : ev.call_duration_sec = some d) :
    (NDRProofValidator.validate_proof_of_attempt dist ev adr).gps_valid
        = decide (dist la lo aa ao ≤ 200) ∧
    (NDRProofValidator.validate_proof_of_attempt dist ev adr).call_valid
        = decide (d ≥ 10) ∧
    (NDRProofValidator.validate_proof_of_attempt dist ev adr).is_valid
        = (decide (dist la lo aa ao ≤ 200) && decide (d ≥ 10)) := by
  have hcall : (truthyI (some d) && decide (d ≥ 10)) = decide (d ≥ 10) := by
    by_cases hd : d = 0
    · subst hd; decide
    · simp [truthyI_some, hd]
  simp [NDRProofValidator.validate_proof_of_attempt, hc, hn, h1, h2, h3, h4, h5,
    truthyQ_some, h1', h2', h3', h4', validate_gps_proximity, hcall]

/-- Witness for C1 (amended) at a concrete fully-instrumented event. -/
theorem C1_amended_witness :
    (NDRProofValidator.validate_proof_of_attempt gcDist
        (mkEvent "NDR" (some "CUSTOMER_UNAVAILABLE") (some 1) (some 1) (some 15))
        (mkAddress "a1" (some 1) (some 1))).is_valid
      = (decide (gcDist 1 1 1 1 ≤ 200) && decide ((15 : Int) ≥ 10)) :=
  (C1_amended gcDist _ _ 1 1 1 1 15 rfl rfl rfl one_ne_zero rfl one_ne_zero rfl
    one_ne_zero rfl one_ne_zero rfl).2.2

/-! ## C10 — a `0.0` coordinate is treated as absent -/

/-- C10: for every CUSTOMER_UNAVAILABLE NDR event in which any one of the four
GPS values equals exactly `0.0`, the validator records the violation
"Missing GPS coordinates", returns `gps_valid = false` and `is_valid = false`,
and never computes a distance (the verdict is independent of the distance
function). -/
theorem C10_zero_coordinate_is_missing (dist dist' : ℚ → ℚ → ℚ → ℚ → ℚ)
    (ev : CourierEvent) (adr : Address)
    (hc : ev.event_code = "NDR") (hn : ev.ndr_code = some "CUSTOMER_UNAVAILABLE")
    (hz : ev.gps_latitude = some 0 ∨ ev.gps_longitude = some 0 ∨
          adr.latitude = some 0 ∨ adr.longitude = some 0) :
    (NDRProofValidator.validate_proof_of_attempt dist ev adr).gps_valid = false ∧
    "Missing GPS coordinates"
      ∈ (NDRProofValidator.validate_proof_of_attempt dist ev adr).violations ∧
    (NDRProofValidator.validate_proof_of_attempt dist ev adr).is_valid = false ∧
    NDRProofValidator.validate_proof_of_attempt dist ev adr
      = NDRProofValidator.validate_proof_of_attempt dist' ev adr := by
  rcases hz with h | h | h | h <;>
    simp [NDRProofValidator.validate_proof_of_attempt, hc, hn, h, truthyQ_some]

/-- Witness for C10: a concrete event with `gps_latitude = 0.0` is rejected. -/
theorem C10_witness :
    (NDRProofValidator.validate_proof_of_attempt gcDist
        (mkEvent "NDR" (some "CUSTOMER_UNAVAILABLE") (some 0) (some 5) (some 15))
        (mkAddress "a1" (some 5) (some 5))).is_valid = false :=
  (C10_zero_coordinate_is_missing gcDist gcDist _ _ rfl rfl (Or.inl rfl)).2.2.1

/-! ## C5 — DISPUTE fast-track window -/

/-- C5: for an order whose resolved shipment has a latest NDR event `e`, a
DISPUTE resolution sets `overturned_within_2h = true` on `e` exactly when
`now − e.timestamp ≤ 2h` (so it holds at `t + 119min` and not at
`t + 121min`); outside the window the events are untouched, and disputing
twice inside the window leaves the events in the state of a single dispute. -/
theorem C5_dispute_window_idempotent (req : NDRResolutionRequest) (db : DB)
    (order : Order) (s : Shipment) (e : CourierEvent)
    (h1 : req.action = "DISPUTE")
    (h2 : db.orders.find? (fun o => o.order_id = req.order_id) = some order)
    (h3 : db.shipments.find? (fun sh => sh.order_id = order.id) = some s)
    (h4 : latestNDRFor s.id db.courier_events = some e) :
    (∀ now, now - e.timestamp ≤ 7200 →
      ∃ db1 resp, ndr_resolution now req db = .ok (db1, resp) ∧
        db1.courier_events = setOverturned e.id db.courier_events ∧
        { e with overturned_within_2h := true } ∈ db1.courier_events) ∧
    (∀ now, ¬ now - e.timestamp ≤ 7200 →
      ∃ db1 resp, ndr_resolution now req db = .ok (db1, resp) ∧
        db1.courier_events = db.courier_events) ∧
    (∀ now now' db1 resp, now - e.timestamp ≤ 7200 → now' - e.timestamp ≤ 7200 →
      ndr_resolution now req db = .ok (db1, resp) →
      ∃ db2 resp', ndr_resolution now' req db1 = .ok (db2, resp') ∧
        db2.courier_events = db1.courier_events) := by
  refine ⟨?_, ?_, ?_⟩
  · intro now hw
    refine ⟨_, _, dispute_run now req db order s h1 h2 h3, ?_, ?_⟩
    · simp [h4, hw]
    · have hmem : { e with overturned_within_2h := true }
          ∈ setOverturned e.id db.courier_events := by
        have hm := List.mem_map_of_mem (markOT e.id) (latestNDRFor_mem _ _ _ h4)
        rwa [markOT_self] at hm
      simpa [h4, hw] using hmem
  · intro now hw
    exact ⟨_, _, dispute_run now req db order s h1 h2 h3, by simp [h4, hw]⟩
  · intro now now' db1 resp hw hw' hrun
    have hbase := dispute_run now req db order s h1 h2 h3
    simp only [h4, if_pos hw] at hbase
    rw [hrun] at hbase
    injection hbase with h5
    injection h5 with hdb1 hresp
    subst hdb1
    have hp : ∀ o : Order,
        (fun o : Order => decide (o.order_id = req.order_id))
          ((fun o : Order =>
            if o.id = order.id then
              applyOrderUpdate now ⟨none, none, none⟩
                ⟨req.order_id, req.action, now, "processed", none, none⟩ o
            else o) o)
          = (fun o : Order => decide (o.order_id = req.order_id)) o := by
      intro o
      dsimp only
      split <;> rfl
    have h2' := find?_map_congr
      (fun o : Order =>
        if o.id = order.id then
          applyOrderUpdate now ⟨none, none, none⟩
            ⟨req.order_id, req.action, now, "processed", none, none⟩ o
        else o)
      (fun o : Order => decide (o.order_id = req.order_id)) db.orders hp
    rw [h2] at h2'
    have hlatest : latestNDRFor s.id (setOverturned e.id db.courier_events)
        = some (markOT e.id e) := by
      rw [latestNDRFor_setOverturned, h4]
      rfl
    refine ⟨_, _, dispute_run now' req _
      (applyOrderUpdate now ⟨none, none, none⟩
        ⟨req.order_id, req.action, now, "processed", none, none⟩ order)
      s h1 (by simpa using h2') (by exact h3), ?_⟩
    simp [hlatest, markOT_timestamp, markOT_id, hw', setOverturned_idem]

/-- Witness for C5: on the concrete state `dbW` (NDR at instant 0), a dispute
at `t + 119min = 7140s` sets the fast-track flag and a dispute at
`t + 121min = 7260s` leaves the events unchanged. -/
theorem C5_witness :
    (∃ db1 resp, ndr_resolution 7140 reqDispute dbW = .ok (db1, resp) ∧
      db1.courier_events = setOverturned sampleNDREvent.id dbW.courier_events ∧
      { sampleNDREvent with overturned_within_2h := true } ∈ db1.courier_events) ∧
    (∃ db1 resp, ndr_resolution 7260 reqDispute dbW = .ok (db1, resp) ∧
      db1.courier_events = dbW.courier_events) := by
  have h := C5_dispute_window_idempotent reqDispute dbW sampleOrder
    (mkShipment "s-1" "Delhivery" "IN_TRANSIT") sampleNDREvent rfl (by decide)
    (by decide) (by decide)
  exact ⟨h.1 7140 (by decide), h.2.1 7260 (by decide)⟩

/-! ## C6 — DISPUTE does not itself create a Challenge -/

/-- C6 is false as stated: a successful DISPUTE resolution on the concrete
state `dbW` (within the window — the flag does get set) creates no Challenge
record and leaves the order's status at "PLACED", not "NDR_CHALLENGED". -/
theorem C6_counterexample :
    (ndr_resolution 100 reqDispute dbW).map
        (fun r => (r.1.ndr_challenges, r.1.orders.map (fun o => o.status),
          r.1.courier_events.map (fun e => e.overturned_within_2h), r.2.status))
      = .ok ([], ["PLACED"], [true], "success") := rfl

theorem map_status_map (l : List Order) (g : Order → Order)
    (hg : ∀ o, (g o).status = o.status) :
    (l.map g).map (fun o => o.status) = l.map (fun o => o.status) := by
  induction l with
  | nil => rfl
  | cons x t ih => simp only [List.map_cons, hg, ih]

/-- C6 (amended): a successful DISPUTE resolution never creates or updates a
Challenge record and never changes any order's status; the Challenge record
(in state UNDER_REVIEW) and the NDR_CHALLENGED order status are produced by
the separate seller `challenge_ndr` operation, on every database-backed
success of which they both appear. -/
theorem C6_amended :
    (∀ (now : Int) (req : NDRResolutionRequest) (db : DB) (order : Order),
      req.action = "DISPUTE" →
      db.orders.find? (fun o => o.order_id = req.order_id) = some order →
      ∃ db1 resp, ndr_resolution now req db = .ok (db1, resp) ∧
        db1.ndr_challenges = db.ndr_challenges ∧
        db1.orders.map (fun o => o.status) = db.orders.map (fun o => o.status)) ∧
    (∀ (now : Int) (req : NDRChallengeReq) (db db2 : DB) (resp : ChallengeResponse),
      challenge_ndr true now req db = .ok (db2, resp) →
      (∃ c, db2.ndr_challenges = db.ndr_challenges ++ [c] ∧
        c.status = "UNDER_REVIEW" ∧ c.id = resp.challenge_id) ∧
      (∃ o ∈ db2.orders, o.order_id = req.order_id ∧ o.status = "NDR_CHALLENGED")) := by
  constructor
  · intro now req db order h1 h2
    have hstat : ∀ o : Order,
        ((fun o : Order =>
          if o.id = order.id then
            applyOrderUpdate now ⟨none, none, none⟩
              ⟨req.order_id, req.action, now, "processed", none, none⟩ o
          else o) o).status = o.status := by
      intro o
      dsimp only
      split <;> rfl
    cases h3 : db.shipments.find? (fun sh => sh.order_id = order.id) with
    | none =>
      have hrun : ndr_resolution now req db = .ok
          ({ db with orders := db.orders.map (fun o =>
              if o.id = order.id then
                applyOrderUpdate now ⟨none, none, none⟩
                  ⟨req.order_id, req.action, now, "processed", none, none⟩ o
              else o) },
           { status := "success", order_id := req.order_id, action := req.action }) := by
        simp [ndr_resolution, ndr_resolution_try, h1, h2, h3]
      exact ⟨_, _, hrun, rfl, map_status_map db.orders _ hstat⟩
    | some s =>
      exact ⟨_, _, dispute_run now req db order s h1 h2 h3, rfl,
        map_status_map db.orders _ hstat⟩
  · intro now req db db2 resp hsucc
    cases ho : db.orders.find? (fun o => o.order_id = req.order_id) with
    | none =>
      simp only [challenge_ndr, if_true, ho] at hsucc
      exact Except.noConfusion hsucc
    | some order =>
      cases hff : findFirstNDR (db.shipments.filter (fun s => s.order_id = order.id))
          db.courier_events with
      | none =>
        simp only [challenge_ndr, if_true, ho, hff] at hsucc
        exact Except.noConfusion hsucc
      | some e =>
        simp only [challenge_ndr, if_true, ho, hff] at hsucc
        injection hsucc with h5
        injection h5 with hdb2 hresp
        subst hdb2
        subst hresp
        constructor
        · exact ⟨_, rfl, rfl, rfl⟩
        · have horder : order ∈ db.orders := List.mem_of_find?_eq_some ho
          have hoid : order.order_id = req.order_id := by
            have := List.find?_some ho
            exact of_decide_eq_true this
          refine ⟨_, List.mem_map_of_mem
            (fun o : Order =>
              if o.id = order.id then
                { o with status := "NDR_CHALLENGED", updated_at := now }
              else o) horder, ?_⟩
          simp [hoid]

/-- Witness for C6 (amended): both conjuncts instantiated on `dbW`. -/
theorem C6_amended_witness :
    (∃ db1 resp, ndr_resolution 100 reqDispute dbW = .ok (db1, resp) ∧
      db1.ndr_challenges = dbW.ndr_challenges ∧
      db1.orders.map (fun o => o.status) = dbW.orders.map (fun o => o.status)) ∧
    (∃ db2 resp, challenge_ndr true 50 reqChal dbW = .ok (db2, resp) ∧
      (∃ c, db2.ndr_challenges = dbW.ndr_challenges ++ [c] ∧
        c.status = "UNDER_REVIEW") ∧
      (∃ o ∈ db2.orders, o.order_id = reqChal.order_id ∧
        o.status = "NDR_CHALLENGED")) := by
  constructor
  · exact C6_amended.1 100 reqDispute dbW sampleOrder rfl (by decide)
  · refine ⟨_, _, rfl, ?_, ?_⟩
    · obtain ⟨⟨c, hc, hs, -⟩, -⟩ := C6_amended.2 50 reqChal dbW _ _ rfl
      exact ⟨c, hc, hs⟩
    · obtain ⟨-, h2⟩ := C6_amended.2 50 reqChal dbW _ _ rfl
      exact h2

/-! ## C7 — CHANGE_ADDRESS never mutates an existing Address -/

/-- C7: a CHANGE_ADDRESS resolution with a payload appends a brand-new Address
document and repoints the order's `delivery_address_id` to it; every
previously stored Address is still found unchanged under its id (so any
earlier event's verdict context resolves exactly as before), the courier
events are untouched, and all other orders are untouched. -/
theorem C7_change_address_frame (now : Int) (req : NDRResolutionRequest)
    (db : DB) (order : Order) (p : AddressPayload)
    (h1 : req.action = "CHANGE_ADDRESS")
    (h2 : db.orders.find? (fun o => o.order_id = req.order_id) = some order)
    (hp : req.new_address = some p) :
    ∃ db1 resp, ndr_resolution now req db = .ok (db1, resp) ∧
      db1.addresses = db.addresses ++ [newAddressDoc now (freshId db) p] ∧
      (∀ aid a, db.addresses.find? (fun x => x.id = aid) = some a →
        db1.addresses.find? (fun x => x.id = aid) = some a) ∧
      db1.courier_events = db.courier_events ∧
      (∀ o ∈ db.orders, o.id ≠ order.id → o ∈ db1.orders) ∧
      (∃ o' ∈ db1.orders, o'.id = order.id ∧ o'.delivery_address_id = freshId db) := by
  refine ⟨_, _, change_address_run now req db order p h1 h2 hp, rfl, ?_, rfl, ?_, ?_⟩
  · intro aid a ha
    show (db.addresses ++ [newAddressDoc now (freshId db) p]).find? _ = some a
    rw [List.find?_append, ha]
    rfl
  · intro o ho hne
    have heq : (fun o : Order =>
        if o.id = order.id then
          applyOrderUpdate now ⟨none, some (freshId db), none⟩
            ⟨req.order_id, req.action, now, "processed", none, some (freshId db)⟩ o
        else o) o = o := if_neg hne
    exact heq ▸ List.mem_map_of_mem _ ho
  · have horder : order ∈ db.orders := List.mem_of_find?_eq_some h2
    refine ⟨_, List.mem_map_of_mem
      (fun o : Order =>
        if o.id = order.id then
          applyOrderUpdate now ⟨none, some (freshId db), none⟩
            ⟨req.order_id, req.action, now, "processed", none, some (freshId db)⟩ o
        else o) horder, ?_⟩
    simp only [if_pos rfl]
    exact ⟨rfl, rfl⟩

/-- Witness for C7 at a concrete CHANGE_ADDRESS run on `dbW`. -/
theorem C7_witness :
    ∃ db1 resp, ndr_resolution 0 reqChange dbW = .ok (db1, resp) ∧
      db1.addresses = dbW.addresses ++ [newAddressDoc 0 (freshId dbW) samplePayload] := by
  obtain ⟨db1, resp, hrun, haddr, -, -, -, -⟩ :=
    C7_change_address_frame 0 reqChange dbW sampleOrder samplePayload rfl
      (by decide) rfl
  exact ⟨db1, resp, hrun, haddr⟩

/-! ## C2 — non-(NDR, CUSTOMER_UNAVAILABLE) events -/

/-- C2 is false as stated: ingesting a plain DELIVERED event yields
`proof_required = false` as claimed, but `proof_validated = false` — not the
claimed `true` — both in the response and in the stored event, because the
document is initialized with `proof_validated: False` and the validator is
never consulted for such events. -/
theorem C2_counterexample :
    (webhook_courier_event gcDist 0 (mkCEReq "DELIVERED" none none none none)
      emptyDB).2.proof_required = false ∧
    (webhook_courier_event gcDist 0 (mkCEReq "DELIVERED" none none none none)
      emptyDB).2.proof_validated = false ∧
    ((webhook_courier_event gcDist 0 (mkCEReq "DELIVERED" none none none none)
      emptyDB).1.courier_events.map (fun e => e.proof_validated)) = [false] := by
  decide

/-- C2 (amended): for every ingested event with `event_code ≠ NDR` or
`ndr_code ≠ CUSTOMER_UNAVAILABLE`, the ingestion result and the stored event
have `proof_required = false` and `proof_validated = false` (the initialized
value; the validator — which would answer the vacuous `is_valid = true` —
is never invoked), and no GPS or call check is performed (the outcome does
not depend on the distance function). -/
theorem C2_amended (dist dist' : ℚ → ℚ → ℚ → ℚ → ℚ) (now : Int)
    (req : CourierEventRequest) (db : DB)
    (h : ¬ (req.event_code = "NDR" ∧ req.ndr_code = some "CUSTOMER_UNAVAILABLE")) :
    (webhook_courier_event dist now req db).2.proof_required = false ∧
    (webhook_courier_event dist now req db).2.proof_validated = false ∧
    (∃ doc, (webhook_courier_event dist now req db).1.courier_events
        = db.courier_events ++ [doc]
      ∧ doc.proof_required = false ∧ doc.proof_validated = false) ∧
    webhook_courier_event dist now req db = webhook_courier_event dist' now req db ∧
    (∀ ev adr, ¬ (ev.event_code = "NDR" ∧ ev.ndr_code = some "CUSTOMER_UNAVAILABLE") →
      (NDRProofValidator.validate_proof_of_attempt dist ev adr).is_valid = true) := by
  have hval : ∀ ev adr,
      ¬ (ev.event_code = "NDR" ∧ ev.ndr_code = some "CUSTOMER_UNAVAILABLE") →
      (NDRProofValidator.validate_proof_of_attempt dist ev adr).is_valid = true := by
    intro ev adr h'
    simp [NDRProofValidator.validate_proof_of_attempt, h']
  cases hf : db.shipments.find? (fun s => s.shipment_id = req.shipment_id) <;>
    refine ⟨?_, ?_, ?_, ?_, hval⟩ <;>
    simp [webhook_courier_event, hf, h, baseEventDoc]

/-- Witness for C2 (amended) at a concrete DELIVERED ingestion. -/
theorem C2_amended_witness :
    (webhook_courier_event gcDist 0 (mkCEReq "DELIVERED" none none none none)
      emptyDB).2.proof_validated = false :=
  (C2_amended gcDist gcDist 0 _ emptyDB (by decide)).2.1

/-! ## C3 — ingestion for an unknown shipment -/

/-- C3 is false as stated: ingesting a CUSTOMER_UNAVAILABLE NDR for a shipment
id that matches nothing does not fail with `UnknownShipment` — it succeeds,
auto-provisions a placeholder shipment (carrier "Unknown", order id
"test-order-id") and records the courier event. -/
theorem C3_counterexample :
    (webhook_courier_event gcDist 0 reqCU emptyDB).2.status = "success" ∧
    (webhook_courier_event gcDist 0 reqCU emptyDB).1.shipments
      = [defaultShipment 0 "uuid-0" reqCU] ∧
    (defaultShipment 0 "uuid-0" reqCU).carrier = "Unknown" ∧
    (defaultShipment 0 "uuid-0" reqCU).order_id = "test-order-id" ∧
    (webhook_courier_event gcDist 0 reqCU emptyDB).1.courier_events.length = 1 ∧
    (webhook_courier_event gcDist 0 reqCU emptyDB).2.proof_required = true ∧
    (webhook_courier_event gcDist 0 reqCU emptyDB).2.proof_validated = false := by
  decide

/-- C3 (amended): for every ingestion request whose `shipment_id` matches no
existing shipment, `webhook_courier_event` succeeds, appends the placeholder
`defaultShipment`, and records the courier event against it with
`proof_required` decided by the (NDR, CUSTOMER_UNAVAILABLE) test and
`proof_validated = false` (validation is skipped for auto-provisioned
shipments). -/
theorem C3_amended (dist : ℚ → ℚ → ℚ → ℚ → ℚ) (now : Int)
    (req : CourierEventRequest) (db : DB)
    (h : db.shipments.find? (fun s => s.shipment_id = req.shipment_id) = none) :
    (webhook_courier_event dist now req db).2.status = "success" ∧
    (webhook_courier_event dist now req db).1.shipments
      = db.shipments ++ [defaultShipment now (freshId db) req] ∧
    (∃ doc, (webhook_courier_event dist now req db).1.courier_events
        = db.courier_events ++ [doc]
      ∧ doc.shipment_id = freshId db
      ∧ doc.proof_required
          = decide (req.event_code = "NDR" ∧ req.ndr_code = some "CUSTOMER_UNAVAILABLE")
      ∧ doc.proof_validated = false) := by
  by_cases hcu : req.event_code = "NDR" ∧ req.ndr_code = some "CUSTOMER_UNAVAILABLE" <;>
    refine ⟨?_, ?_, ?_⟩ <;>
    simp [webhook_courier_event, h, hcu, baseEventDoc]

/-- Witness for C3 (amended) at a concrete unknown-shipment ingestion. -/
theorem C3_amended_witness :
    (webhook_courier_event gcDist 0 reqCU emptyDB).1.shipments
      = emptyDB.shipments ++ [defaultShipment 0 (freshId emptyDB) reqCU] :=
  (C3_amended gcDist 0 reqCU emptyDB rfl).2.1

/-! ## C4 — unknown order id on NDR resolution -/

/-! ## C8 — failures converted into fabricated successes -/

/-- C8 is false as stated: with the persistence layer unavailable, the seller
dashboard answers a fabricated success (the fixed demo KPI response claiming
50 orders and 42 deliveries for an empty store) and `challenge_ndr` answers a
fabricated success response — neither failure is reported as an error. -/
theorem C8_counterexample :
    get_seller_dashboard false 0 "brand-1" "week" emptyDB
      = demoDashboard "brand-1" "week" ∧
    (demoDashboard "brand-1" "week").total_orders = 50 ∧
    (demoDashboard "brand-1" "week").successful_deliveries = 42 ∧
    (∃ resp, challenge_ndr false 0 reqChal emptyDB = .ok (emptyDB, resp) ∧
      resp.status = "success" ∧ resp.challenge_id = "demo_challenge_0") :=
  ⟨rfl, rfl, rfl, ⟨_, rfl, rfl, rfl⟩⟩

/-- C8 (amended): not every failure is surfaced: whenever the persistence
layer is unavailable, `get_seller_dashboard` answers the fixed demo KPI
response and `challenge_ndr` answers a fabricated "success" — for every
state, brand, period and challenge request — instead of reporting an error
to the caller. -/
theorem C8_amended (now : Int) (brand period : String) (db : DB)
    (req : NDRChallengeReq) :
    get_seller_dashboard false now brand period db = demoDashboard brand period ∧
    ∃ resp, challenge_ndr false now req db = .ok (db, resp) ∧
      resp.status = "success" :=
  ⟨rfl, ⟨_, rfl, rfl⟩⟩

/-! ## C9 — dashboard aggregation -/

theorem ndrEventStep_total (st : CarrierStats) (e : CourierEvent) :
    (ndrEventStep st e).total = st.total := by
  by_cases h1 : e.proof_validated <;> by_cases h2 : e.proof_required <;>
    by_cases h3 : e.overturned_flag <;> simp [ndrEventStep, h1, h2, h3]

theorem foldl_ndrEventStep_total (evs : List CourierEvent) :
    ∀ st : CarrierStats, (evs.foldl ndrEventStep st).total = st.total := by
  induction evs with
  | nil => intro st; rfl
  | cons e t ih => intro st; rw [List.foldl_cons, ih, ndrEventStep_total]

theorem shipmentStatsUpdate_total (db : DB) (s : Shipment) (st : CarrierStats) :
    (shipmentStatsUpdate db s st).total = st.total + 1 := by
  simp only [shipmentStatsUpdate, foldl_ndrEventStep_total]
  split <;> rfl

theorem sumTotals_updCarrier (c : String) (f : CarrierStats → CarrierStats)
    (hf : ∀ st, (f st).total = st.total + 1) :
    ∀ l : List (String × CarrierStats), sumTotals (updCarrier c f l) = sumTotals l + 1 := by
  intro l
  induction l with
  | nil => simp [updCarrier, sumTotals, hf, initStats]
  | cons kv t ih =>
    obtain ⟨k, v⟩ := kv
    by_cases h : k = c
    · simp only [updCarrier, if_pos h, sumTotals, List.map_cons, List.sum_cons, hf]
      omega
    · simp only [updCarrier, if_neg h, sumTotals, List.map_cons, List.sum_cons] at ih ⊢
      omega

theorem sumTotals_processShipment (db : DB) (acc : DashAcc) (s : Shipment) :
    sumTotals (processShipment db acc s).stats = sumTotals acc.stats + 1 :=
  sumTotals_updCarrier s.carrier _ (shipmentStatsUpdate_total db s) acc.stats

theorem sumTotals_ship_foldl (db : DB) (ships : List Shipment) :
    ∀ acc : DashAcc, sumTotals ((ships.foldl (processShipment db) acc).stats)
      = sumTotals acc.stats + ships.length := by
  induction ships with
  | nil => intro acc; rfl
  | cons s t ih =>
    intro acc
    rw [List.foldl_cons, ih, sumTotals_processShipment, List.length_cons]
    omega

theorem sumTotals_dashAcc (db : DB) (orders : List Order) :
    sumTotals ((dashAcc db orders).stats)
      = (orders.map (fun o => (shipmentsOf o db).length)).sum := by
  suffices key : ∀ (os : List Order) (acc : DashAcc),
      sumTotals ((os.foldl
          (fun acc o => (shipmentsOf o db).foldl (processShipment db) acc) acc).stats)
        = sumTotals acc.stats + (os.map (fun o => (shipmentsOf o db).length)).sum by
    simpa [dashAcc, emptyAcc, sumTotals] using key orders emptyAcc
  intro os
  induction os with
  | nil => intro acc; simp
  | cons o t ih =>
    intro acc
    rw [List.foldl_cons, ih, sumTotals_ship_foldl, List.map_cons, List.sum_cons]
    omega

theorem sum_map_total_carrierEntry (l : List (String × CarrierStats)) :
    ((l.map carrierEntry).map (fun c => c.total_orders)).sum = sumTotals l := by
  induction l with
  | nil => rfl
  | cons kv t ih =>
    simp only [List.map_cons, List.sum_cons, ih, sumTotals]
    rfl

theorem sum_map_ones (l : List Order) (f : Order → Nat) (h : ∀ a ∈ l, f a = 1) :
    (l.map f).sum = l.length := by
  induction l with
  | nil => rfl
  | cons x t ih =>
    rw [List.map_cons, List.sum_cons, h x (List.mem_cons_self x t),
      ih (fun a ha => h a (List.mem_cons_of_mem _ ha)), List.length_cons]
    omega

/-- C9 is false as stated, on both conjuncts: (i) with one in-period order
and no shipments, `total_orders = 1` while the carrier breakdown sums to `0`;
(ii) with three shipments of one carrier of which one is delivered, the
reported `success_rate` is `33.33` (Python `round(x, 2)`), which is not
`delivered/total*100 = 100/3`. -/
theorem C9_counterexample :
    (get_seller_dashboard true 0 "b" "week" dbNoShip).total_orders = 1 ∧
    ((get_seller_dashboard true 0 "b" "week" dbNoShip).carrier_breakdown.map
        (fun c => c.total_orders)).sum = 0 ∧
    (dashAcc db3Ship (filteredOrders 0 "b" "week" db3Ship)).stats
      = [("Delhivery", { total := 3, delivered := 1, verified_ndrs := 0
                         suspicious_ndrs := 0, rto_prevented := 0 })] ∧
    (get_seller_dashboard true 0 "b" "week" db3Ship).carrier_breakdown.map
        (fun c => c.success_rate) = [3333/100] ∧
    ((1 : ℚ) / (3 : ℚ) * 100 ≠ 3333/100) := by
  have hstats : (dashAcc db3Ship (filteredOrders 0 "b" "week" db3Ship)).stats
      = [("Delhivery", { total := 3, delivered := 1, verified_ndrs := 0
                         suspicious_ndrs := 0, rto_prevented := 0 })] := by
    decide
  refine ⟨by decide, by decide, hstats, ?_, by norm_num⟩
  have hbreak : (get_seller_dashboard true 0 "b" "week" db3Ship).carrier_breakdown
      = ((dashAcc db3Ship (filteredOrders 0 "b" "week" db3Ship)).stats).map
          carrierEntry := rfl
  rw [hbreak, hstats]
  simp only [List.map_cons, List.map_nil, carrierEntry]
  norm_num [roundQ2, round_eq]

/-- C9 (amended): each carrier's breakdown entry reports
`success_rate = round2(delivered/total*100)` (Python's two-decimal rounding;
`0` when `total = 0`) and `total_orders = total`, where the counters tally
*shipments*; the breakdown's `total_orders` entries sum to the number of
shipments of the period's orders, which equals the dashboard's `total_orders`
(the number of period orders) exactly when each period order has one
shipment. -/
theorem C9_amended (now : Int) (brand period : String) (db : DB) :
    (get_seller_dashboard true now brand period db).carrier_breakdown
      = ((dashAcc db (filteredOrders now brand period db)).stats).map carrierEntry ∧
    (∀ p ∈ (dashAcc db (filteredOrders now brand period db)).stats,
      (carrierEntry p).total_orders = p.2.total ∧
      (carrierEntry p).success_rate
        = (if 0 < p.2.total then roundQ2 ((p.2.delivered : ℚ) / (p.2.total : ℚ) * 100)
           else 0)) ∧
    ((get_seller_dashboard true now brand period db).carrier_breakdown.map
        (fun c => c.total_orders)).sum
      = ((filteredOrders now brand period db).map
          (fun o => (shipmentsOf o db).length)).sum ∧
    ((∀ o ∈ filteredOrders now brand period db, (shipmentsOf o db).length = 1) →
      ((get_seller_dashboard true now brand period db).carrier_breakdown.map
          (fun c => c.total_orders)).sum
        = (get_seller_dashboard true now brand period db).total_orders) := by
  have hsum : ((get_seller_dashboard true now brand period db).carrier_breakdown.map
      (fun c => c.total_orders)).sum
      = ((filteredOrders now brand period db).map
          (fun o => (shipmentsOf o db).length)).sum := by
    show (((dashAcc db (filteredOrders now brand period db)).stats.map
        carrierEntry).map (fun c => c.total_orders)).sum = _
    rw [sum_map_total_carrierEntry, sumTotals_dashAcc]
  refine ⟨rfl, fun p _ => ⟨rfl, rfl⟩, hsum, fun h => ?_⟩
  rw [hsum, sum_map_ones _ _ h]
  rfl

/-- Witness for C9 (amended): on a store whose single in-period order has
exactly one shipment, the breakdown totals sum to the dashboard's
`total_orders`. -/
theorem C9_amended_witness :
    ((get_seller_dashboard true 0 "b" "week" db1Ship).carrier_breakdown.map
        (fun c => c.total_orders)).sum
      = (get_seller_dashboard true 0 "b" "week" db1Ship).total_orders :=
  (C9_amended 0 "b" "week" db1Ship).2.2.2 (by decide)

/-- C4: the claim (and the repository's own test, which expects status 400
for order id "non-existent-order") is right and the code is wrong: the `try`
body raises `HTTPException(400, "Invalid order_id")`, but `ndr_resolution`
has no `except HTTPException: raise` clause, so the blanket
`except Exception` converts it into a 500 "Internal server error". No state
is mutated either way (the failure happens before any write). -/
theorem C4_unknown_order_becomes_500 :
    ndr_resolution_try 0
        { order_id := "non-existent-order", action := "RESCHEDULE"
          new_address := none, reschedule_date := none, customer_response := none }
        emptyDB
      = .error { status_code := 400, detail := "Invalid order_id" } ∧
    ndr_resolution 0
        { order_id := "non-existent-order", action := "RESCHEDULE"
          new_address := none, reschedule_date := none, customer_response := none }
        emptyDB
      = .error { status_code := 500, detail := "Internal server error" } :=
  ⟨rfl, rfl⟩

end RTO
